import Mathlib

/-!
Verification development for the polymarket scalp-trading repository.

Shallow embedding of the numeric core: the indicator library
(`src/binance_api.py`), the signal engine (`src/signal_engine.py`), the
candle-stream ingestion fallback (`src/ws_binance.py`) and the position
reconciliation (`src/trade_executor.py`).

Conventions of the embedding:
* Python floats are modelled as exact rationals (`ℚ`); decimal literals of
  the source become the corresponding rationals (0.66 = 66/100 etc.).
* Python dicts produced with a fixed key set are modelled as structures;
  `dict.get(key, default)` is absorbed into a total field of the structure
  (every reachable dict value is some assignment of the fields).
* `os.getenv('NAME', default)` configuration reads are modelled by their
  documented defaults, as constants.
* Fallible I/O (HTTP fetches, balance queries) is passed in as an
  `Option` argument: `none` models the call raising an exception.
-/

/-- A kline candle, as built by `get_klines` / `BinanceWS._on_message`:
`{timestamp, open, high, low, close, volume}`.  `open` is a Lean keyword,
hence the field name `open_`. -/
structure Candle where
  timestamp : ℤ
  open_ : ℚ
  high : ℚ
  low : ℚ
  close : ℚ
  volume : ℚ
deriving DecidableEq

instance : Inhabited Candle := ⟨⟨0, 0, 0, 0, 0, 0⟩⟩

/-- Python `lst[-n:]` for `n > 0`: the last `min n (length)` elements. -/
def lastN (n : ℕ) (l : List α) : List α := l.drop (l.length - n)

/-- Python `lst[-n:]` including the `n = 0` case, where `lst[-0:]` is the
whole list (used by `BinanceWS.get_candles` with a caller-chosen limit). -/
def pyLastSlice (n : ℕ) (l : List α) : List α :=
  if n = 0 then l else lastN n l

/-- Python `min(seq)` on a nonempty list (0 on the empty list, which the
source never reaches at the call sites embedded here). -/
def listMin (l : List ℚ) : ℚ :=
  match l with
  | [] => 0
  | x :: xs => xs.foldl min x

/-- Python `max(seq)` on a nonempty list (0 on the empty list). -/
def listMax (l : List ℚ) : ℚ :=
  match l with
  | [] => 0
  | x :: xs => xs.foldl max x

/-- `candles[-1]['close']` (0 on the empty list, unreachable at call sites). -/
def lastClose (candles : List Candle) : ℚ := (candles.getLast?.getD default).close

/-- Consecutive pairs `(candles[i-1], candles[i])` for `i = 1 .. len-1`. -/
def consecPairs (candles : List Candle) : List (Candle × Candle) :=
  List.zipWith Prod.mk candles candles.tail

/-! ## Configuration defaults (`os.getenv(..., default)`) -/

/-- `RSI_PERIOD = int(os.getenv('RSI_PERIOD', '7'))` -/
def RSI_PERIOD : ℕ := 7
/-- `ADX_PERIOD = int(os.getenv('ADX_PERIOD', '7'))` -/
def ADX_PERIOD : ℕ := 7
/-- `BB_PERIOD = int(os.getenv('BB_PERIOD', '14'))` -/
def BB_PERIOD : ℕ := 14

/-! ## Indicator library (`src/binance_api.py`) -/

/-- The last `period` close-to-close changes used by `compute_rsi`
(binance_api.py:108-109). -/
def rsiChanges (candles : List Candle) (period : ℕ) : List ℚ :=
  lastN period ((consecPairs candles).map (fun pc => pc.2.close - pc.1.close))

/-- `avg_gain` of `compute_rsi` (binance_api.py:111,114). -/
def rsiAvgGain (candles : List Candle) (period : ℕ) : ℚ :=
  ((rsiChanges candles period).map (fun c => max c 0)).sum / (period : ℚ)

/-- `avg_loss` of `compute_rsi` (binance_api.py:112,115). -/
def rsiAvgLoss (candles : List Candle) (period : ℕ) : ℚ :=
  ((rsiChanges candles period).map (fun c => max (-c) 0)).sum / (period : ℚ)

/-- `compute_rsi` (binance_api.py:101-124): fast RSI over the last
`period` close-to-close changes. -/
def compute_rsi (candles : List Candle) (period : ℕ) : ℚ :=
  if candles.length < period + 1 then 50
  else if rsiAvgGain candles period = 0 ∧ rsiAvgLoss candles period = 0 then 50
  else if rsiAvgLoss candles period = 0 then 100
  else 100 - 100 / (1 + rsiAvgGain candles period / rsiAvgLoss candles period)

/-- One `(plus_dm, minus_dm, tr)` entry of the `compute_adx` loop body
(binance_api.py:158-177). -/
structure DmTr where
  plus_dm : ℚ
  minus_dm : ℚ
  tr : ℚ

/-- The directional-movement/true-range entry for a consecutive candle pair. -/
def dmTr (prev c : Candle) : DmTr :=
  let plus_dm := max (c.high - prev.high) 0
  let minus_dm := max (prev.low - c.low) 0
  let pm : ℚ × ℚ :=
    if plus_dm > minus_dm then (plus_dm, 0)
    else if minus_dm > plus_dm then (0, minus_dm)
    else (0, 0)
  let tr := max (c.high - c.low) (max |c.high - prev.close| |c.low - prev.close|)
  ⟨pm.1, pm.2, tr⟩

/-- Accumulator of the Wilder-smoothing loop in `compute_adx`
(binance_api.py:187-204). -/
structure AdxAcc where
  atr_s : ℚ
  plus_s : ℚ
  minus_s : ℚ
  dxs : List ℚ

/-- One iteration of the `compute_adx` smoothing loop. -/
def adxStep (period : ℕ) (acc : AdxAcc) (x : DmTr) : AdxAcc :=
  let atr_s := (acc.atr_s * ((period : ℚ) - 1) + x.tr) / (period : ℚ)
  let plus_s := (acc.plus_s * ((period : ℚ) - 1) + x.plus_dm) / (period : ℚ)
  let minus_s := (acc.minus_s * ((period : ℚ) - 1) + x.minus_dm) / (period : ℚ)
  let di : ℚ × ℚ :=
    if atr_s > 0 then (plus_s / atr_s * 100, minus_s / atr_s * 100) else (0, 0)
  let di_sum := di.1 + di.2
  let dx := if di_sum > 0 then |di.1 - di.2| / di_sum * 100 else 0
  ⟨atr_s, plus_s, minus_s, acc.dxs ++ [dx]⟩

/-- `compute_adx` (binance_api.py:146-211): Wilder-style ADX, neutral 25.0
when there is insufficient data. -/
def compute_adx (candles : List Candle) (period : ℕ) : ℚ :=
  if candles.length < period + 2 then 25
  else
    let dms := (consecPairs candles).map (fun pc => dmTr pc.1 pc.2)
    if dms.length < period then 25
    else
      let atr0 := ((dms.take period).map (·.tr)).sum / (period : ℚ)
      let plus0 := ((dms.take period).map (·.plus_dm)).sum / (period : ℚ)
      let minus0 := ((dms.take period).map (·.minus_dm)).sum / (period : ℚ)
      let r := (dms.drop period).foldl (adxStep period) ⟨atr0, plus0, minus0, []⟩
      if r.dxs = [] then 25
      else (lastN period r.dxs).sum / ((min r.dxs.length period : ℕ) : ℚ)

/-- Decides `bandwidth > t` for the Bollinger bandwidth of
`compute_bollinger_bandwidth` (binance_api.py:214-229), where
`bandwidth = (upper-lower)/sma*100 = 400*sqrt(variance)/sma` when `sma > 0`
and `0` otherwise.  The square root is eliminated by comparing squares,
which is exact for `t ≥ 0` (all quantities nonnegative); `t < 0` always
compares true since `bandwidth ≥ 0`.  `detect_regime` only calls this with
`t = 0.15`. -/
def bbBandwidthGt (candles : List Candle) (t : ℚ) : Bool :=
  if candles.length < BB_PERIOD then decide ((0 : ℚ) > t)
  else
    let closes := (lastN BB_PERIOD candles).map (·.close)
    let sma := closes.sum / (closes.length : ℚ)
    let variance := (closes.map (fun c => (c - sma) ^ 2)).sum / (closes.length : ℚ)
    if sma > 0 then
      if t < 0 then true else decide (160000 * variance > t ^ 2 * sma ^ 2)
    else decide ((0 : ℚ) > t)

/-- The running `vwap_values` list of `compute_vwap`
(binance_api.py:301-312). -/
def vwapValues (candles : List Candle) : List ℚ :=
  (candles.foldl
    (fun (acc : ℚ × ℚ × List ℚ) c =>
      let typical := (c.high + c.low + c.close) / 3
      let cum_vol := acc.1 + c.volume
      let cum_tp_vol := acc.2.1 + typical * c.volume
      (cum_vol, cum_tp_vol,
       acc.2.2 ++ [if cum_vol > 0 then cum_tp_vol / cum_vol else typical]))
    (0, 0, [])).2.2

/-- `vwap = vwap_values[-1]` (binance_api.py:314). -/
def vwapOf (candles : List Candle) : ℚ := (vwapValues candles).getLast?.getD 0

/-- `vwap_slope` (binance_api.py:319-324): normalized 5-value VWAP delta,
clamped to [-1, 1]. -/
def vwapSlopeOf (candles : List Candle) : ℚ :=
  if (vwapValues candles).length ≥ 5 then
    let recent := lastN 5 (vwapValues candles)
    let first := recent.headI
    let lastV := recent.getLast?.getD 0
    let slope := if first > 0 then (lastV - first) / first * 100 else 0
    max (-1) (min 1 (slope * 50))
  else 0

/-- `compute_vwap` (binance_api.py:290-326).  Returns
`(vwap, price_vs_vwap, vwap_slope)`; note `price_vs_vwap` is a
*percentage*: `(current - vwap) / vwap * 100`. -/
def compute_vwap (candles : List Candle) : ℚ × ℚ × ℚ :=
  if candles.length < 3 then (0, 0, 0)
  else
    (vwapOf candles,
     if vwapOf candles > 0
       then (lastClose candles - vwapOf candles) / vwapOf candles * 100 else 0,
     vwapSlopeOf candles)

/-- Market regime as classified by `detect_regime`. -/
inductive Regime
  | RANGE
  | CHOP
  | TREND_UP
  | TREND_DOWN
deriving DecidableEq

/-- The 10-sample close SMA of `detect_regime` (binance_api.py:394-395). -/
def sma10 (candles : List Candle) : ℚ :=
  ((lastN 10 candles).map (·.close)).sum / (((lastN 10 candles).map (·.close)).length : ℚ)

/-- The green-candle count of the last 7 candles (binance_api.py:400). -/
def greens7 (candles : List Candle) : ℕ :=
  ((lastN 7 candles).filter (fun c => c.close > c.open_)).length

/-- `detect_regime` (binance_api.py:376-422): TREND_UP / TREND_DOWN /
RANGE / CHOP from ADX, 10-sample SMA direction, green-candle count of the
last 7 and Bollinger bandwidth. -/
def detect_regime (candles : List Candle) : Regime × ℚ :=
  if candles.length < 14 then (Regime.RANGE, 25)
  else
    let adx := compute_adx candles ADX_PERIOD
    if adx ≥ 25 then
      if lastClose candles > sma10 candles ∧ greens7 candles ≥ 4 then (Regime.TREND_UP, adx)
      else if ¬(lastClose candles > sma10 candles) ∧ greens7 candles ≤ 3 then
        (Regime.TREND_DOWN, adx)
      else (Regime.RANGE, adx)
    else if adx < 18 then
      -- `bb_bw > 0.15` on the bandwidth of `compute_bollinger_bandwidth`
      if bbBandwidthGt candles (15 / 100) then (Regime.CHOP, adx)
      else (Regime.RANGE, adx)
    else (Regime.RANGE, adx)

/-! ## Signal engine (`src/signal_engine.py`) -/

/-! Configuration defaults of signal_engine.py:10-42. -/

/-- `W_MOMENTUM = float(os.getenv('W_MOMENTUM', '0.30'))` -/
def W_MOMENTUM : ℚ := 30 / 100
/-- `W_DIVERGENCE = float(os.getenv('W_DIVERGENCE', '0.20'))` -/
def W_DIVERGENCE : ℚ := 20 / 100
/-- `W_SR = float(os.getenv('W_SUPPORT_RESISTANCE', '0.10'))` -/
def W_SR : ℚ := 10 / 100
/-- `W_MACD = float(os.getenv('W_MACD', '0.15'))` -/
def W_MACD : ℚ := 15 / 100
/-- `W_VWAP = float(os.getenv('W_VWAP', '0.15'))` -/
def W_VWAP : ℚ := 15 / 100
/-- `W_BB = float(os.getenv('W_BOLLINGER', '0.10'))` -/
def W_BB : ℚ := 10 / 100
/-- `VOL_THRESHOLD = float(os.getenv('VOL_THRESHOLD', '0.03'))` -/
def VOL_THRESHOLD : ℚ := 3 / 100
/-- `VOL_AMPLIFIER = float(os.getenv('VOL_AMPLIFIER', '1.3'))` -/
def VOL_AMPLIFIER : ℚ := 13 / 10
/-- `REGIME_CHOP_MULT = float(os.getenv('REGIME_CHOP_MULT', '0.50'))` -/
def REGIME_CHOP_MULT : ℚ := 1 / 2
/-- `REGIME_TREND_BOOST = float(os.getenv('REGIME_TREND_BOOST', '1.15'))` -/
def REGIME_TREND_BOOST : ℚ := 115 / 100
/-- `REGIME_COUNTER_MULT = float(os.getenv('REGIME_COUNTER_MULT', '0.70'))` -/
def REGIME_COUNTER_MULT : ℚ := 70 / 100
/-- `PHASE_EARLY_THRESHOLD = int(os.getenv('PHASE_EARLY_THRESHOLD', '50'))` -/
def PHASE_EARLY_THRESHOLD : ℤ := 50
/-- `PHASE_MID_THRESHOLD = int(os.getenv('PHASE_MID_THRESHOLD', '30'))` -/
def PHASE_MID_THRESHOLD : ℤ := 30
/-- `PHASE_LATE_THRESHOLD = int(os.getenv('PHASE_LATE_THRESHOLD', '70'))` -/
def PHASE_LATE_THRESHOLD : ℤ := 70
/-- `PHASE_CLOSING_THRESHOLD = 999` (signal_engine.py:30) -/
def PHASE_CLOSING_THRESHOLD : ℤ := 999
/-- `SIGNAL_NEUTRAL_ZONE = 0.10` -/
def SIGNAL_NEUTRAL_ZONE : ℚ := 10 / 100
/-- `DIVERGENCE_LOOKBACK = 6` -/
def DIVERGENCE_LOOKBACK : ℕ := 6
/-- `SR_LOOKBACK = 20` -/
def SR_LOOKBACK : ℕ := 20
/-- `TP_BASE_SPREAD = 0.05` -/
def TP_BASE_SPREAD : ℚ := 5 / 100
/-- `TP_STRENGTH_SCALE = 0.10` -/
def TP_STRENGTH_SCALE : ℚ := 10 / 100
/-- `TP_MAX_PRICE = 0.95` -/
def TP_MAX_PRICE : ℚ := 95 / 100
/-- `SL_DEFAULT = 0.06` -/
def SL_DEFAULT : ℚ := 6 / 100
/-- `SL_MIN_PRICE = 0.03` -/
def SL_MIN_PRICE : ℚ := 3 / 100

/-- `_ema` (signal_engine.py:45-53): simple EMA of a list of floats. -/
def _ema (values : List ℚ) (period : ℚ) : ℚ :=
  match values with
  | [] => 0
  | v0 :: rest =>
    let k := 2 / (period + 1)
    rest.foldl (fun e v => v * k + e * (1 - k)) v0

/-- Market phase as returned by `get_market_phase`. -/
inductive MarketPhase
  | EARLY
  | MID
  | LATE
  | CLOSING
deriving DecidableEq

/-- `get_market_phase` (signal_engine.py:56-68): phase and
minimum-strength threshold from `pct = time_remaining / window_min`. -/
def get_market_phase (time_remaining window_min : ℚ) : MarketPhase × ℤ :=
  let pct := if window_min > 0 then time_remaining / window_min else 0
  if pct > 66 / 100 then (MarketPhase.EARLY, PHASE_EARLY_THRESHOLD)
  else if pct > 33 / 100 then (MarketPhase.MID, PHASE_MID_THRESHOLD)
  else if pct > 6 / 100 then (MarketPhase.LATE, PHASE_LATE_THRESHOLD)
  else (MarketPhase.CLOSING, PHASE_CLOSING_THRESHOLD)

/-- The `binance` indicator dict consumed by `compute_signal`
(signal_engine.py:80-196), produced by `get_full_analysis`.  The
`dict.get` defaults (`rsi` 50, `score` 0, `macd_hist` 0, ... ,
`bb_pos` 0.5, `bb_squeeze` False, `atr` 0) are absorbed into total
fields: every reachable dict is some assignment of these fields. -/
structure Indicators where
  rsi : ℚ
  score : ℚ
  macd_hist : ℚ
  macd_hist_delta : ℚ
  vwap_pos : ℚ
  vwap_slope : ℚ
  bb_pos : ℚ
  bb_squeeze : Bool
  atr : ℚ
deriving DecidableEq

/-- One entry of the rolling price `history` window
(`{'btc': ..., 'up': ...}` samples appended by the radar loop). -/
structure HistSample where
  up : ℚ
  btc : ℚ
deriving DecidableEq

instance : Inhabited HistSample := ⟨⟨0, 0⟩⟩

/-- Signal direction. -/
inductive Direction
  | UP
  | DOWN
  | NEUTRAL
deriving DecidableEq

/-- The `suggestion` dict `{'entry': ..., 'tp': ..., 'sl': ...}`
(signal_engine.py:227). -/
structure Suggestion where
  entry : ℚ
  tp : ℚ
  sl : ℚ
deriving DecidableEq

/-- The signal dict returned by `compute_signal` (signal_engine.py:229-239). -/
structure Signal where
  direction : Direction
  strength : ℤ
  score : ℚ
  rsi : ℚ
  btc_var : ℚ
  high_vol : Bool
  divergence : ℚ
  suggestion : Option Suggestion
  trend : ℚ
  sr_raw : ℚ
  sr_adj : ℚ
  vol_pct : ℚ
  macd_hist : ℚ
  macd_hist_delta : ℚ
  vwap_pos : ℚ
  vwap_slope : ℚ
  bb_pos : ℚ
  bb_squeeze : Bool
  regime : Regime
  phase : MarketPhase
deriving DecidableEq

/-- TREND FILTER (signal_engine.py:84-91): EMA(5) vs EMA(12) of the
positive up-prices among the last 20 history samples. -/
def trendStrength (history : List HistSample) : ℚ :=
  if history.length ≥ 12 then
    let up_prices := ((lastN 20 history).filter (fun h => h.up > 0)).map (·.up)
    if up_prices.length ≥ 12 then
      let fast_ema := _ema up_prices 5
      let slow_ema := _ema up_prices 12
      let ema_diff := if slow_ema > 0 then (fast_ema - slow_ema) / slow_ema else 0
      max (-1) (min 1 (ema_diff / (2 / 100)))
    else 0
  else 0

/-- RSI bucket `rsi_c` (signal_engine.py:94-100). -/
def rsiComponent (rsi : ℚ) : ℚ :=
  if rsi < 25 then 1
  else if rsi < 35 then 6 / 10
  else if rsi < 45 then 2 / 10
  else if rsi > 75 then -1
  else if rsi > 65 then -(6 / 10)
  else if rsi > 55 then -(2 / 10)
  else 0

/-- DIVERGENCE (signal_engine.py:106-116): returns `(div_score, btc_var)`;
`btc_var` stays 0 unless the 6-back sample has positive btc and up. -/
def divergenceScore (history : List HistSample) : ℚ × ℚ :=
  if history.length ≥ DIVERGENCE_LOOKBACK then
    let h_old := (lastN DIVERGENCE_LOOKBACK history).headI
    let h_new := history.getLast?.getD default
    if h_old.btc > 0 ∧ h_old.up > 0 then
      let btc_var := (h_new.btc - h_old.btc) / h_old.btc * 100
      let poly_var := h_new.up - h_old.up
      let div :=
        if btc_var > 1 / 100 ∧ poly_var < 2 / 100 then min (btc_var * 8) 1
        else if btc_var < -(1 / 100) ∧ poly_var > -(2 / 100) then max (btc_var * 8) (-1)
        else 0
      (div, btc_var)
    else (0, 0)
  else (0, 0)

/-- SUPPORT/RESISTANCE raw bucket `sr_raw` (signal_engine.py:120-132). -/
def srRaw (up_buy : ℚ) (history : List HistSample) : ℚ :=
  if history.length ≥ 10 then
    let ups := (history.filter (fun h => h.up > 0)).map (·.up)
    if ups.length ≥ 10 then
      let up_min := listMin (lastN SR_LOOKBACK ups)
      let up_max := listMax (lastN SR_LOOKBACK ups)
      let range_ := up_max - up_min
      if range_ > 3 / 100 then
        let pos := (up_buy - up_min) / range_
        if pos < 20 / 100 then 8 / 10
        else if pos < 35 / 100 then 4 / 10
        else if pos > 80 / 100 then -(8 / 10)
        else if pos > 65 / 100 then -(4 / 10)
        else 0
      else 0
    else 0
  else 0

/-- Trend-filter adjustment of `sr_raw` into `sr_score`
(signal_engine.py:134-141). -/
def srAdjust (trend_strength sr_raw : ℚ) : ℚ :=
  if |trend_strength| > 3 / 10 then
    if (trend_strength > 0 ∧ sr_raw < 0) ∨ (trend_strength < 0 ∧ sr_raw > 0) then
      let reduction := min (|trend_strength| * 2) 1
      sr_raw * (1 - reduction)
    else sr_raw
  else sr_raw

/-- MACD HISTOGRAM DELTA sub-score (signal_engine.py:147-157). -/
def macdScore (macd_hist macd_hist_delta : ℚ) : ℚ :=
  let ms :=
    if |macd_hist_delta| > 1 / 2 then (if macd_hist_delta > 0 then (1 : ℚ) else -1)
    else if |macd_hist_delta| > 1 / 10 then (if macd_hist_delta > 0 then 1 / 2 else -(1 / 2))
    else 0
  if macd_hist > 0 ∧ macd_hist_delta > 0 then min (ms * (12 / 10)) 1
  else if macd_hist < 0 ∧ macd_hist_delta < 0 then max (ms * (12 / 10)) (-1)
  else ms

/-- VWAP POSITION + SLOPE sub-score (signal_engine.py:163-174). -/
def vwapScore (vwap_pos vwap_slope : ℚ) : ℚ :=
  let s1 : ℚ :=
    if vwap_pos > 2 / 100 then 1 / 2
    else if vwap_pos < -(2 / 100) then -(1 / 2)
    else 0
  let s2 : ℚ :=
    if vwap_slope > 2 / 10 then 1 / 2
    else if vwap_slope < -(2 / 10) then -(1 / 2)
    else 0
  max (-1) (min 1 (s1 + s2))

/-- BOLLINGER POSITION sub-score (signal_engine.py:180-192). -/
def bbScore (bb_pos : ℚ) (bb_squeeze : Bool) : ℚ :=
  let s : ℚ :=
    if bb_pos < 15 / 100 then 8 / 10
    else if bb_pos < 30 / 100 then 4 / 10
    else if bb_pos > 85 / 100 then -(8 / 10)
    else if bb_pos > 70 / 100 then -(4 / 10)
    else 0
  if bb_squeeze then max (-1) (min 1 (s * (15 / 10))) else s

/-- All intermediate values of the `compute_signal` body
(signal_engine.py:79-212), computed once, mirroring the Python
straight-line code. -/
structure ScoreParts where
  trend : ℚ
  div_score : ℚ
  btc_var : ℚ
  sr_raw : ℚ
  sr_adj : ℚ
  vol_pct : ℚ
  high_vol : Bool
  score : ℚ

/-- The score pipeline of `compute_signal` (signal_engine.py:79-212):
weighted sub-scores, volatility amplifier, regime adjustment, final clamp.
Note it does not depend on `down_buy`. -/
def scoreParts (up_buy btc_price : ℚ) (bi : Indicators) (history : List HistSample)
    (regime : Regime) : ScoreParts :=
  let trend := trendStrength history
  let momentum := rsiComponent bi.rsi * (4 / 10) + min (max (bi.score / (1 / 2)) (-1)) 1 * (6 / 10)
  let dv := divergenceScore history
  let sr_raw := srRaw up_buy history
  let sr_adj := srAdjust trend sr_raw
  let score := momentum * W_MOMENTUM + dv.1 * W_DIVERGENCE + sr_adj * W_SR
    + macdScore bi.macd_hist bi.macd_hist_delta * W_MACD
    + vwapScore bi.vwap_pos bi.vwap_slope * W_VWAP
    + bbScore bi.bb_pos bi.bb_squeeze * W_BB
  let vol_pct := if btc_price > 0 then bi.atr / btc_price * 100 else 0
  let high_vol := vol_pct > VOL_THRESHOLD
  let score := if high_vol then score * VOL_AMPLIFIER else score
  -- REGIME ADJUSTMENT (signal_engine.py:202-210)
  let score :=
    match regime with
    | Regime.CHOP => score * REGIME_CHOP_MULT
    | Regime.TREND_UP =>
        if score > 0 then score * REGIME_TREND_BOOST else score * REGIME_COUNTER_MULT
    | Regime.TREND_DOWN =>
        if score < 0 then score * REGIME_TREND_BOOST else score * REGIME_COUNTER_MULT
    | Regime.RANGE => score
  let score := max (-1) (min 1 score)
  ⟨trend, dv.1, dv.2, sr_raw, sr_adj, vol_pct, high_vol, score⟩

/-- The suggestion block of `compute_signal` (signal_engine.py:218-227). -/
def suggestionOf (up_buy down_buy : ℚ) (direction : Direction) (strength : ℤ) :
    Option Suggestion :=
  if strength ≥ 30 then
    let entry := if direction = Direction.UP then up_buy else down_buy
    let spread := TP_BASE_SPREAD + ((strength : ℚ) / 100) * TP_STRENGTH_SCALE
    some ⟨entry, min (entry + spread) TP_MAX_PRICE, max (entry - SL_DEFAULT) SL_MIN_PRICE⟩
  else none

/-- The direction decision (signal_engine.py:213-215). -/
def directionOf (score : ℚ) : Direction :=
  if score > SIGNAL_NEUTRAL_ZONE then Direction.UP
  else if score < -SIGNAL_NEUTRAL_ZONE then Direction.DOWN
  else Direction.NEUTRAL

/-- `strength = int(abs(score) * 100)` (signal_engine.py:216): `int()`
truncates toward zero, which on the nonnegative `abs(score)` is the floor. -/
def strengthOf (score : ℚ) : ℤ := ⌊|score| * 100⌋

/-- The signal dict built by `compute_signal` once past the null guard
(signal_engine.py:79-239). -/
def signalOf (up_buy down_buy btc_price : ℚ) (bi : Indicators) (history : List HistSample)
    (regime : Regime) (phase : MarketPhase) : Signal :=
  { direction := directionOf (scoreParts up_buy btc_price bi history regime).score
    strength := strengthOf (scoreParts up_buy btc_price bi history regime).score
    score := (scoreParts up_buy btc_price bi history regime).score
    rsi := bi.rsi
    btc_var := (scoreParts up_buy btc_price bi history regime).btc_var
    high_vol := (scoreParts up_buy btc_price bi history regime).high_vol
    divergence := (scoreParts up_buy btc_price bi history regime).div_score
    suggestion := suggestionOf up_buy down_buy
      (directionOf (scoreParts up_buy btc_price bi history regime).score)
      (strengthOf (scoreParts up_buy btc_price bi history regime).score)
    trend := (scoreParts up_buy btc_price bi history regime).trend
    sr_raw := (scoreParts up_buy btc_price bi history regime).sr_raw
    sr_adj := (scoreParts up_buy btc_price bi history regime).sr_adj
    vol_pct := (scoreParts up_buy btc_price bi history regime).vol_pct
    macd_hist := bi.macd_hist
    macd_hist_delta := bi.macd_hist_delta
    vwap_pos := bi.vwap_pos
    vwap_slope := bi.vwap_slope
    bb_pos := bi.bb_pos
    bb_squeeze := bi.bb_squeeze
    regime := regime
    phase := phase }

/-- `compute_signal` (signal_engine.py:71-239).  The `binance` dict is
`none` when the caller passes a falsy value (`not binance`). -/
def compute_signal (up_buy down_buy btc_price : ℚ) (binance : Option Indicators)
    (history : List HistSample) (regime : Regime) (phase : MarketPhase) : Option Signal :=
  match binance with
  | none => none
  | some bi =>
    if up_buy ≤ 0 ∨ btc_price ≤ 0 then none
    else some (signalOf up_buy down_buy btc_price bi history regime phase)

/-! ## Candle stream ingestion (`src/ws_binance.py`) -/

/-- The `source` tag returned by `BinanceWS.get_candles`: `'ws'` is the
spec's `stream`, `'http'` is the spec's `fallback`. -/
inductive Source
  | ws
  | http
deriving DecidableEq

/-- The mutable state of a `BinanceWS` instance that `get_candles` reads
and writes (ws_binance.py:45-53): the closed-candle buffer, the forming
candle, the connection flag and the last-update clock. -/
structure WSState where
  candles : List Candle
  current : Option Candle
  connected : Bool
  last_update : ℚ
deriving DecidableEq

/-- `BinanceWS.get_candles` (ws_binance.py:109-141).  `now` is the value
of `time.time()`; `fetch` is the result of the synchronous
`get_klines(limit=limit)` fallback call, `none` when it raises.  Returns
the candles, the source tag and the instance state after the call. -/
def get_candles (st : WSState) (now : ℚ) (limit : ℕ) (fetch : Option (List Candle)) :
    List Candle × Source × WSState :=
  let all_candles := st.candles ++ (match st.current with | some c => [c] | none => [])
  -- Use WS data if connected and we have enough candles
  if st.connected = true ∧ all_candles.length ≥ 5 ∧ now - st.last_update < 10 then
    (pyLastSlice limit all_candles, Source.ws, st)
  else
    match fetch with
    | some candles =>
      -- Always refresh buffer with HTTP data
      (candles, Source.http,
       { st with
          candles := candles.dropLast
          current := match candles.getLast? with | some c => some c | none => st.current
          last_update := now })
    | none =>
      -- Fetch failed: return whatever we have
      if all_candles ≠ [] then (pyLastSlice limit all_candles, Source.ws, st)
      else ([], Source.http, st)

/-! ## Position reconciliation (`src/trade_executor.py`) -/

/-- Position direction (`'up'` / `'down'`, keying `token_up` / `token_down`). -/
inductive TradeDir
  | up
  | down
deriving DecidableEq

/-- Order side passed to `get_price`. -/
inductive Side
  | BUY
  | SELL
deriving DecidableEq

/-- A local position dict (trade_executor.py:70-76 and `handle_buy`).
`pid` models Python object identity — two distinct dict objects may be
equal as values; `pid` is *not* part of the dict value.  `time` models
the `"%H:%M:%S"` string as an abstract token; `source` is `true` when the
dict carries `'source': 'platform'` (reconciliation-recovered positions)
and `false` when the key is absent (manual buys). -/
structure Position where
  pid : ℕ
  direction : TradeDir
  price : ℚ
  shares : ℚ
  time : ℕ
  source : Bool
deriving DecidableEq

/-- The dict *value* of a position: what Python `==` (and hence
`list.remove`) compares — everything except the object identity. -/
def pval (p : Position) : TradeDir × ℚ × ℚ × ℕ × Bool :=
  (p.direction, p.price, p.shares, p.time, p.source)

/-- `positions.remove(p)`: removes the first element whose dict value
equals `p`'s (Python list.remove uses `==`). -/
def removeFirstVal (p : Position) : List Position → List Position
  | [] => []
  | q :: rest => if pval q = pval p then rest else q :: removeFirstVal p rest

/-- `p['shares'] -= to_remove` on the *object* `p`: updates the element
with `p`'s identity if it is still in the list; if the object was already
removed from the list (possible when `remove` deleted a value-equal
duplicate instead), the mutation is lost. -/
def mutateShares (pid : ℕ) (newShares : ℚ) : List Position → List Position
  | [] => []
  | q :: rest =>
    if q.pid = pid then { q with shares := newShares } :: rest
    else q :: mutateShares pid newShares rest

/-- One `(direction, shares, price, action)` change tuple returned by
`sync_positions`. -/
inductive SyncAction
  | added
  | removed
deriving DecidableEq

/-- A change entry of `sync_positions`' result list. -/
structure Change where
  direction : TradeDir
  shares : ℚ
  price : ℚ
  action : SyncAction
deriving DecidableEq

/-- The LIFO removal loop of `sync_positions` (trade_executor.py:82-93).
`snapshot` is `reversed(list(positions))`; the loop reads each snapshot
object once (an object is never read after being mutated, since the
single possible mutation zeroes `to_remove`), removes by dict value and
mutates by object identity. -/
def syncRemove (direction : TradeDir) :
    List Position → List Position → ℚ → List Change → List Position × ℚ × List Change
  | [], positions, to_remove, changes => (positions, to_remove, changes)
  | p :: rest, positions, to_remove, changes =>
    if p.direction ≠ direction ∨ to_remove ≤ 0 then
      syncRemove direction rest positions to_remove changes
    else if p.shares ≤ to_remove then
      syncRemove direction rest (removeFirstVal p positions) (to_remove - p.shares)
        (changes ++ [⟨direction, p.shares, p.price, SyncAction.removed⟩])
    else
      syncRemove direction rest (mutateShares p.pid (p.shares - to_remove) positions) 0
        (changes ++ [⟨direction, to_remove, p.price, SyncAction.removed⟩])

/-- A fresh object identity for a position appended by `sync_positions`. -/
def freshPid (positions : List Position) : ℕ :=
  (positions.map (·.pid)).foldl max 0 + 1

/-- The per-direction body of the `sync_positions` loop
(trade_executor.py:53-93).  `actual` is the result of
`get_token_position` (`none` models the call raising, which the source
skips with `continue`); `get_price` is the quote callable, keyed here by
direction since the token id is a function of the direction; `now` is
the `datetime.now().strftime("%H:%M:%S")` timestamp token. -/
def syncDirection (actual : Option ℚ) (direction : TradeDir)
    (get_price : TradeDir → Side → ℚ) (now : ℕ)
    (positions : List Position) (changes : List Change) : List Position × List Change :=
  match actual with
  | none => (positions, changes)
  | some actual_shares =>
    let local_shares := ((positions.filter (fun p => p.direction = direction)).map (·.shares)).sum
    let diff := actual_shares - local_shares
    if diff ≥ 1 then
      let price0 := get_price direction Side.SELL
      let price := if price0 ≤ 0 then get_price direction Side.BUY else price0
      (positions ++ [⟨freshPid positions, direction, price, diff, now, true⟩],
       changes ++ [⟨direction, diff, price, SyncAction.added⟩])
    else if diff ≤ -1 then
      let r := syncRemove direction positions.reverse positions (-diff) changes
      (r.1, r.2.2)
    else (positions, changes)

/-- `sync_positions` (trade_executor.py:35-95): reconcile the local
position list against the on-exchange balances, direction `'up'` first,
then `'down'`.  Returns the updated list and the change tuples. -/
def sync_positions (actual_up actual_down : Option ℚ)
    (get_price : TradeDir → Side → ℚ) (now : ℕ)
    (positions : List Position) : List Position × List Change :=
  let r1 := syncDirection actual_up TradeDir.up get_price now positions []
  syncDirection actual_down TradeDir.down get_price now r1.1 r1.2

/-! ## Helper lemmas -/

/-- The final score of the pipeline is literally a clamp
(signal_engine.py:212). -/
theorem scoreParts_score_eq_clamp (up btc : ℚ) (bi : Indicators) (history : List HistSample)
    (regime : Regime) :
    ∃ y, (scoreParts up btc bi history regime).score = max (-1) (min 1 y) :=
  ⟨_, rfl⟩

/-- The `strength` field unfolds to the floor of `|score| * 100`. -/
theorem signalOf_strength (up down btc : ℚ) (bi : Indicators) (history : List HistSample)
    (regime : Regime) (phase : MarketPhase) :
    (signalOf up down btc bi history regime phase).strength
      = ⌊|(scoreParts up btc bi history regime).score| * 100⌋ :=
  rfl

/-- The clamped score lies in [-1, 1]. -/
theorem score_bounds_aux (up btc : ℚ) (bi : Indicators) (history : List HistSample)
    (regime : Regime) :
    -1 ≤ (scoreParts up btc bi history regime).score ∧
      (scoreParts up btc bi history regime).score ≤ 1 := by
  obtain ⟨y, hy⟩ := scoreParts_score_eq_clamp up btc bi history regime
  rw [hy]
  exact ⟨le_max_left _ _, max_le (by norm_num) (min_le_left _ _)⟩

/-- The strength `⌊|score| * 100⌋` lies in [0, 100]. -/
theorem strength_bounds_aux (up btc : ℚ) (bi : Indicators) (history : List HistSample)
    (regime : Regime) :
    0 ≤ ⌊|(scoreParts up btc bi history regime).score| * 100⌋ ∧
      ⌊|(scoreParts up btc bi history regime).score| * 100⌋ ≤ 100 := by
  obtain ⟨h1, h2⟩ := score_bounds_aux up btc bi history regime
  constructor
  · exact Int.floor_nonneg.mpr (by positivity)
  · have habs : |(scoreParts up btc bi history regime).score| ≤ 1 := abs_le.mpr ⟨h1, h2⟩
    have h100 : |(scoreParts up btc bi history regime).score| * 100 ≤ 100 := by nlinarith
    calc ⌊|(scoreParts up btc bi history regime).score| * 100⌋
        ≤ ⌊(100 : ℚ)⌋ := Int.floor_le_floor h100
      _ = 100 := by norm_num

/-! ## Claim theorems -/

/-- C9: `compute_signal` returns null exactly when `upPrice ≤ 0`, or
`assetPrice ≤ 0`, or the indicator snapshot is absent; every other input
yields a non-null signal — in particular `downPrice ≤ 0` alone never
causes a null result (signal_engine.py:76-77). -/
theorem compute_signal_none_iff (up down btc : ℚ) (binance : Option Indicators)
    (history : List HistSample) (regime : Regime) (phase : MarketPhase) :
    compute_signal up down btc binance history regime phase = none ↔
      up ≤ 0 ∨ btc ≤ 0 ∨ binance = none := by
  cases binance with
  | none => simp [compute_signal]
  | some bi =>
    simp only [compute_signal]
    split_ifs with h
    · simp [h]
    · push_neg at h
      simp [h.1.not_le, h.2.not_le]

/-- C7: `get_market_phase` classifies by `pct = remaining/window` with
bands EARLY (pct > 0.66), MID (0.33 < pct ≤ 0.66), LATE
(0.06 < pct ≤ 0.33) and CLOSING (pct ≤ 0.06); in particular
Phase(14,15) = EARLY, Phase(7,15) = MID, Phase(2,15) = LATE,
Phase(0.5,15) = CLOSING; and the CLOSING threshold 999 strictly exceeds
100, an upper bound of every signal strength, so it blocks all trading
(signal_engine.py:56-68, radar_scalp.py:778). -/
theorem get_market_phase_spec :
    (∀ remaining window : ℚ, 0 < window →
      (remaining / window > 66/100 →
        get_market_phase remaining window = (MarketPhase.EARLY, PHASE_EARLY_THRESHOLD)) ∧
      (33/100 < remaining / window ∧ remaining / window ≤ 66/100 →
        get_market_phase remaining window = (MarketPhase.MID, PHASE_MID_THRESHOLD)) ∧
      (6/100 < remaining / window ∧ remaining / window ≤ 33/100 →
        get_market_phase remaining window = (MarketPhase.LATE, PHASE_LATE_THRESHOLD)) ∧
      (remaining / window ≤ 6/100 →
        get_market_phase remaining window = (MarketPhase.CLOSING, PHASE_CLOSING_THRESHOLD))) ∧
    get_market_phase 14 15 = (MarketPhase.EARLY, 50) ∧
    get_market_phase 7 15 = (MarketPhase.MID, 30) ∧
    get_market_phase 2 15 = (MarketPhase.LATE, 70) ∧
    get_market_phase (1/2) 15 = (MarketPhase.CLOSING, PHASE_CLOSING_THRESHOLD) ∧
    (100 : ℤ) < PHASE_CLOSING_THRESHOLD ∧
    (∀ (up down btc : ℚ) (binance : Option Indicators) (history : List HistSample)
      (regime : Regime) (phase : MarketPhase) (sig : Signal),
      compute_signal up down btc binance history regime phase = some sig →
      sig.strength < PHASE_CLOSING_THRESHOLD) := by
  refine ⟨?_,
    by norm_num [get_market_phase, PHASE_EARLY_THRESHOLD],
    by norm_num [get_market_phase, PHASE_MID_THRESHOLD],
    by norm_num [get_market_phase, PHASE_LATE_THRESHOLD],
    by norm_num [get_market_phase, PHASE_CLOSING_THRESHOLD],
    by norm_num [PHASE_CLOSING_THRESHOLD], ?_⟩
  · intro remaining window hw
    unfold get_market_phase
    rw [if_pos hw]
    refine ⟨fun h => ?_, fun h => ?_, fun h => ?_, fun h => ?_⟩
    · rw [if_pos h]
    · rw [if_neg (by linarith [h.2]), if_pos h.1]
    · rw [if_neg (by linarith [h.2]), if_neg (by linarith [h.2]), if_pos h.1]
    · rw [if_neg (by linarith), if_neg (by linarith), if_neg (by linarith)]
  · intro up down btc binance history regime phase sig h
    cases binance with
    | none => simp [compute_signal] at h
    | some bi =>
      simp only [compute_signal] at h
      split_ifs at h
      obtain rfl := Option.some.inj h
      rw [signalOf_strength]
      have := (strength_bounds_aux up btc bi history regime).2
      unfold PHASE_CLOSING_THRESHOLD
      omega

/-- Witness for C7: the phase classification applied at `remaining = 8`,
`window = 15` (pct = 8/15 ∈ (0.33, 0.66]). -/
theorem get_market_phase_spec_witness :
    get_market_phase 8 15 = (MarketPhase.MID, PHASE_MID_THRESHOLD) :=
  (get_market_phase_spec.1 8 15 (by norm_num)).2.1 (by norm_num)

/-- C1 (amended): for every input on which `compute_signal` returns a
signal, the score lies in [-1, 1] and the strength is an integer in
[0, 100] equal to `⌊|score| * 100⌋` — the *truncation* of
`|score| * 100` (Python `int()`), not its rounding
(signal_engine.py:212-216). -/
theorem signal_score_strength_bounds (up down btc : ℚ) (binance : Option Indicators)
    (history : List HistSample) (regime : Regime) (phase : MarketPhase) (sig : Signal)
    (h : compute_signal up down btc binance history regime phase = some sig) :
    (-1 ≤ sig.score ∧ sig.score ≤ 1) ∧ (0 ≤ sig.strength ∧ sig.strength ≤ 100) ∧
      sig.strength = ⌊|sig.score| * 100⌋ := by
  cases binance with
  | none => simp [compute_signal] at h
  | some bi =>
    simp only [compute_signal] at h
    split_ifs at h
    obtain rfl := Option.some.inj h
    exact ⟨score_bounds_aux up btc bi history regime,
           strength_bounds_aux up btc bi history regime, rfl⟩

/-- The concrete indicator snapshot used for the C1 instances: a neutral
dict except `score = 0.35`, so the final signal score is 0.126. -/
def c1Bi : Indicators := ⟨50, 35/100, 0, 0, 0, 0, 1/2, false, 0⟩

/-- Witness for C1 (amended): the bounds at a concrete input
(score 0.126, strength 12). -/
theorem signal_score_strength_bounds_witness :
    (-1 ≤ (signalOf (1/2) (1/2) 100 c1Bi [] Regime.RANGE MarketPhase.MID).score ∧
      (signalOf (1/2) (1/2) 100 c1Bi [] Regime.RANGE MarketPhase.MID).score ≤ 1) ∧
    (0 ≤ (signalOf (1/2) (1/2) 100 c1Bi [] Regime.RANGE MarketPhase.MID).strength ∧
      (signalOf (1/2) (1/2) 100 c1Bi [] Regime.RANGE MarketPhase.MID).strength ≤ 100) ∧
    (signalOf (1/2) (1/2) 100 c1Bi [] Regime.RANGE MarketPhase.MID).strength
      = ⌊|(signalOf (1/2) (1/2) 100 c1Bi [] Regime.RANGE MarketPhase.MID).score| * 100⌋ :=
  signal_score_strength_bounds (1/2) (1/2) 100 (some c1Bi) [] Regime.RANGE MarketPhase.MID
    (signalOf (1/2) (1/2) 100 c1Bi [] Regime.RANGE MarketPhase.MID)
    (by simp only [compute_signal]; norm_num)

/-- C1 counterexample to the claim as stated: at this input the returned
score is 0.126, so `round(|score| * 100) = round(12.6) = 13`, but the
returned strength is `int(12.6) = 12` — strength is the truncation, not
the rounding, of `|score| * 100`. -/
theorem signal_strength_round_counterexample :
    (compute_signal (1/2) (1/2) 100 (some c1Bi) [] Regime.RANGE MarketPhase.MID).map (·.strength)
      = some 12 ∧
    (compute_signal (1/2) (1/2) 100 (some c1Bi) [] Regime.RANGE MarketPhase.MID).map
        (fun sig => round (|sig.score| * 100)) = some 13 := by
  norm_num [compute_signal, signalOf, scoreParts, c1Bi, trendStrength, rsiComponent,
    divergenceScore, srRaw, srAdjust, macdScore, vwapScore, bbScore, strengthOf, directionOf,
    suggestionOf, W_MOMENTUM, W_DIVERGENCE, W_SR, W_MACD, W_VWAP, W_BB, VOL_THRESHOLD,
    VOL_AMPLIFIER, SIGNAL_NEUTRAL_ZONE, DIVERGENCE_LOOKBACK, TP_BASE_SPREAD, TP_STRENGTH_SCALE,
    TP_MAX_PRICE, SL_DEFAULT, SL_MIN_PRICE, round_eq, Int.floor_eq_iff]
  rw [show |(63:ℚ)/500| = 63/500 by norm_num]
  norm_num

/-- A strictly rising green candle (open i, close i+1, volume 1). -/
def riseCandle (i : ℕ) : Candle := ⟨(i : ℤ), (i : ℚ), (i : ℚ) + 1, (i : ℚ), (i : ℚ) + 1, 1⟩

/-- Seven rising candles: fewer than the 14 `detect_regime` requires. -/
def c8Short : List Candle :=
  [riseCandle 0, riseCandle 1, riseCandle 2, riseCandle 3, riseCandle 4, riseCandle 5,
   riseCandle 6]

/-- Fourteen rising candles. -/
def c8Rise : List Candle :=
  [riseCandle 0, riseCandle 1, riseCandle 2, riseCandle 3, riseCandle 4, riseCandle 5,
   riseCandle 6, riseCandle 7, riseCandle 8, riseCandle 9, riseCandle 10, riseCandle 11,
   riseCandle 12, riseCandle 13]

/-- C8 counterexample to the claim as stated: on seven rising candles the
computed ADX is the insufficient-data default 25.0 (hence ≥ 25), the last
close is above the 10-sample SMA, and all 7 of the last 7 candles are
green, yet `detect_regime` returns RANGE because of its own
`len(candles) < 14` guard (binance_api.py:387-388). -/
theorem detect_regime_short_counterexample :
    25 ≤ compute_adx c8Short ADX_PERIOD ∧ sma10 c8Short < lastClose c8Short ∧
    4 ≤ greens7 c8Short ∧ (detect_regime c8Short).1 = Regime.RANGE := by
  refine ⟨?_, ?_, ?_, ?_⟩
  · norm_num [compute_adx, c8Short, ADX_PERIOD, riseCandle]
  · norm_num [sma10, lastClose, c8Short, lastN, riseCandle]
  · norm_num [greens7, c8Short, lastN, riseCandle]
  · norm_num [detect_regime, c8Short]

/-- C8 (amended): for every candle sequence *with at least 14 candles*
whose computed ADX is at least 25, whose last close is above the
10-sample SMA of closes, and with at least 4 green candles among the last
7, `detect_regime` returns TREND_UP (binance_api.py:403-406). -/
theorem detect_regime_trend_up (candles : List Candle) (hlen : 14 ≤ candles.length)
    (hadx : 25 ≤ compute_adx candles ADX_PERIOD)
    (hsma : sma10 candles < lastClose candles)
    (hgreens : 4 ≤ greens7 candles) :
    detect_regime candles = (Regime.TREND_UP, compute_adx candles ADX_PERIOD) := by
  simp only [detect_regime]
  rw [if_neg (by omega), if_pos hadx, if_pos ⟨hsma, hgreens⟩]

/-- Witness for C8 (amended): fourteen rising candles give ADX 100,
close above the SMA, 7 greens, and regime TREND_UP. -/
theorem detect_regime_trend_up_witness :
    detect_regime c8Rise = (Regime.TREND_UP, compute_adx c8Rise ADX_PERIOD) :=
  detect_regime_trend_up c8Rise (by norm_num [c8Rise])
    (by norm_num [compute_adx, c8Rise, ADX_PERIOD, riseCandle, consecPairs, dmTr, adxStep,
        lastN, List.cons_ne_nil])
    (by norm_num [sma10, lastClose, c8Rise, lastN, riseCandle])
    (by norm_num [greens7, c8Rise, lastN, riseCandle])

/-- C6: for every candle sequence with at least `period + 1 = 8` candles,
`compute_rsi` returns exactly 50.0 when all of the last 7 close-to-close
changes are zero; exactly 100.0 when no change is negative and at least
one is positive (all losses zero, some gain nonzero); and otherwise
(some change negative) `100 - 100 / (1 + avgGain / avgLoss)` with the
averages taken over the last 7 changes (binance_api.py:101-124). -/
theorem compute_rsi_cases (candles : List Candle) (hlen : RSI_PERIOD + 1 ≤ candles.length) :
    ((∀ c ∈ rsiChanges candles RSI_PERIOD, c = 0) → compute_rsi candles RSI_PERIOD = 50) ∧
    ((∀ c ∈ rsiChanges candles RSI_PERIOD, 0 ≤ c) →
      (∃ c ∈ rsiChanges candles RSI_PERIOD, 0 < c) → compute_rsi candles RSI_PERIOD = 100) ∧
    ((∃ c ∈ rsiChanges candles RSI_PERIOD, c < 0) →
      compute_rsi candles RSI_PERIOD
        = 100 - 100 / (1 + rsiAvgGain candles RSI_PERIOD / rsiAvgLoss candles RSI_PERIOD)) := by
  have hlen' : ¬(candles.length < RSI_PERIOD + 1) := by omega
  refine ⟨fun h => ?_, fun h1 h2 => ?_, fun h3 => ?_⟩
  · have hg : rsiAvgGain candles RSI_PERIOD = 0 := by
      unfold rsiAvgGain
      rw [List.sum_eq_zero, zero_div]
      intro x hx
      obtain ⟨c, hc, rfl⟩ := List.mem_map.mp hx
      rw [h c hc]
      simp
    have hl : rsiAvgLoss candles RSI_PERIOD = 0 := by
      unfold rsiAvgLoss
      rw [List.sum_eq_zero, zero_div]
      intro x hx
      obtain ⟨c, hc, rfl⟩ := List.mem_map.mp hx
      rw [h c hc]
      simp
    unfold compute_rsi
    rw [if_neg hlen', if_pos ⟨hg, hl⟩]
  · obtain ⟨c0, hc0, hc0pos⟩ := h2
    have hl : rsiAvgLoss candles RSI_PERIOD = 0 := by
      unfold rsiAvgLoss
      rw [List.sum_eq_zero, zero_div]
      intro x hx
      obtain ⟨c, hc, rfl⟩ := List.mem_map.mp hx
      exact max_eq_right (neg_nonpos.mpr (h1 c hc))
    have hg : rsiAvgGain candles RSI_PERIOD ≠ 0 := by
      unfold rsiAvgGain
      have hmem : max c0 0 ∈ (rsiChanges candles RSI_PERIOD).map (fun c => max c 0) :=
        List.mem_map.mpr ⟨c0, hc0, rfl⟩
      have hnn : ∀ x ∈ (rsiChanges candles RSI_PERIOD).map (fun c => max c 0), 0 ≤ x := by
        intro x hx
        obtain ⟨c, hc, rfl⟩ := List.mem_map.mp hx
        exact le_max_right c 0
      have hle := List.single_le_sum hnn _ hmem
      have hpos : 0 < ((rsiChanges candles RSI_PERIOD).map (fun c => max c 0)).sum :=
        lt_of_lt_of_le (lt_max_of_lt_left hc0pos) hle
      exact ne_of_gt (div_pos hpos (by norm_num [RSI_PERIOD]))
    unfold compute_rsi
    rw [if_neg hlen', if_neg (fun hand => hg hand.1), if_pos hl]
  · obtain ⟨c0, hc0, hc0neg⟩ := h3
    have hlpos : 0 < rsiAvgLoss candles RSI_PERIOD := by
      unfold rsiAvgLoss
      have hmem : max (-c0) 0 ∈ (rsiChanges candles RSI_PERIOD).map (fun c => max (-c) 0) :=
        List.mem_map.mpr ⟨c0, hc0, rfl⟩
      have hnn : ∀ x ∈ (rsiChanges candles RSI_PERIOD).map (fun c => max (-c) 0), 0 ≤ x := by
        intro x hx
        obtain ⟨c, hc, rfl⟩ := List.mem_map.mp hx
        exact le_max_right _ 0
      have hle := List.single_le_sum hnn _ hmem
      have hpos : 0 < ((rsiChanges candles RSI_PERIOD).map (fun c => max (-c) 0)).sum :=
        lt_of_lt_of_le (lt_max_of_lt_left (by linarith)) hle
      exact div_pos hpos (by norm_num [RSI_PERIOD])
    unfold compute_rsi
    rw [if_neg hlen', if_neg (fun hand => absurd hand.2 (ne_of_gt hlpos)),
        if_neg (ne_of_gt hlpos)]

/-- A flat candle with all prices 5. -/
def flatCandle (i : ℕ) : Candle := ⟨(i : ℤ), 5, 5, 5, 5, 1⟩

/-- Eight flat candles: every close-to-close change is zero. -/
def c6Flat : List Candle :=
  [flatCandle 0, flatCandle 1, flatCandle 2, flatCandle 3, flatCandle 4, flatCandle 5,
   flatCandle 6, flatCandle 7]

/-- Eight candles with strictly rising closes: all gains, no losses. -/
def c6Up : List Candle :=
  [⟨0, 5, 5, 5, 5, 1⟩, ⟨1, 5, 5, 5, 6, 1⟩, ⟨2, 5, 5, 5, 7, 1⟩, ⟨3, 5, 5, 5, 8, 1⟩,
   ⟨4, 5, 5, 5, 9, 1⟩, ⟨5, 5, 5, 5, 10, 1⟩, ⟨6, 5, 5, 5, 11, 1⟩, ⟨7, 5, 5, 5, 12, 1⟩]

/-- Eight candles with mixed gains and losses. -/
def c6Mix : List Candle :=
  [⟨0, 5, 5, 5, 10, 1⟩, ⟨1, 5, 5, 5, 12, 1⟩, ⟨2, 5, 5, 5, 9, 1⟩, ⟨3, 5, 5, 5, 13, 1⟩,
   ⟨4, 5, 5, 5, 13, 1⟩, ⟨5, 5, 5, 5, 11, 1⟩, ⟨6, 5, 5, 5, 14, 1⟩, ⟨7, 5, 5, 5, 15, 1⟩]

/-- Witness for C6: the three RSI cases at flat, all-gain and mixed
eight-candle inputs. -/
theorem compute_rsi_cases_witness :
    compute_rsi c6Flat RSI_PERIOD = 50 ∧ compute_rsi c6Up RSI_PERIOD = 100 ∧
    compute_rsi c6Mix RSI_PERIOD
      = 100 - 100 / (1 + rsiAvgGain c6Mix RSI_PERIOD / rsiAvgLoss c6Mix RSI_PERIOD) := by
  refine ⟨(compute_rsi_cases c6Flat (by norm_num [c6Flat, RSI_PERIOD])).1 ?_,
          (compute_rsi_cases c6Up (by norm_num [c6Up, RSI_PERIOD])).2.1 ?_ ?_,
          (compute_rsi_cases c6Mix (by norm_num [c6Mix, RSI_PERIOD])).2.2 ?_⟩
  · intro c hc
    simp only [rsiChanges, consecPairs, lastN, c6Flat, flatCandle, RSI_PERIOD] at hc
    norm_num at hc
    exact hc
  · intro c hc
    simp only [rsiChanges, consecPairs, lastN, c6Up, RSI_PERIOD] at hc
    norm_num at hc
    rw [hc]
    norm_num
  · refine ⟨1, ?_, by norm_num⟩
    simp only [rsiChanges, consecPairs, lastN, c6Up, RSI_PERIOD]
    norm_num
  · refine ⟨-3, ?_, by norm_num⟩
    simp only [rsiChanges, consecPairs, lastN, c6Mix, RSI_PERIOD]
    norm_num

/-- When the VWAP is positive, the `price_vs_vwap` component returned by
`compute_vwap` is the *percentage* `(close - vwap) / vwap * 100`
(binance_api.py:316). -/
theorem compute_vwap_pos (candles : List Candle) (hv : (compute_vwap candles).1 > 0) :
    (compute_vwap candles).2.1
      = (lastClose candles - (compute_vwap candles).1) / (compute_vwap candles).1 * 100 := by
  unfold compute_vwap at hv ⊢
  by_cases h : candles.length < 3
  · rw [if_pos h] at hv
    norm_num at hv
  · rw [if_neg h] at hv ⊢
    dsimp only at hv ⊢
    rw [if_pos hv]

/-- C5 (amended): when `compute_signal` is given the VWAP position
produced by `compute_vwap` for a candle sequence with vwap > 0, the VWAP
sub-score adds +0.5 exactly when `(close - vwap)/vwap > 0.0002` — i.e.
when the close is more than 0.02% (not 2%) above the VWAP, because the
code compares the *percentage* `vwap_pos` against the threshold 0.02 —
and symmetrically -0.5 beyond -0.02%, plus another ±0.5 for slope beyond
±0.2, with the sum clamped to [-1, 1] (binance_api.py:316,
signal_engine.py:163-174). -/
theorem vwap_subscore_threshold (candles : List Candle)
    (hv : (compute_vwap candles).1 > 0) :
    vwapScore (compute_vwap candles).2.1 (compute_vwap candles).2.2 =
      max (-1) (min 1
        ((if (lastClose candles - (compute_vwap candles).1) / (compute_vwap candles).1 > 2/10000
            then (1:ℚ)/2
          else if (lastClose candles - (compute_vwap candles).1) / (compute_vwap candles).1
              < -(2/10000) then -(1/2) else 0)
         + (if (compute_vwap candles).2.2 > 2/10 then (1:ℚ)/2
            else if (compute_vwap candles).2.2 < -(2/10) then -(1/2) else 0))) := by
  have hpos := compute_vwap_pos candles hv
  simp only [vwapScore]
  rw [hpos]
  have h1 : ((lastClose candles - (compute_vwap candles).1) / (compute_vwap candles).1 * 100
      > 2/100) ↔
      ((lastClose candles - (compute_vwap candles).1) / (compute_vwap candles).1 > 2/10000) := by
    constructor <;> intro hx <;> linarith
  have h2 : ((lastClose candles - (compute_vwap candles).1) / (compute_vwap candles).1 * 100
      < -(2/100)) ↔
      ((lastClose candles - (compute_vwap candles).1) / (compute_vwap candles).1 < -(2/10000)) := by
    constructor <;> intro hx <;> linarith
  rw [if_congr h1 rfl (if_congr h2 rfl rfl)]

/-- Three candles whose VWAP is 100 with final close 101: the close is 1%
above the VWAP. -/
def c5Candles : List Candle :=
  [⟨0, 100, 100, 100, 100, 1⟩, ⟨1, 100, 100, 100, 100, 1⟩, ⟨2, 100, 101, 98, 101, 1⟩]

/-- C5 counterexample to the claim as stated: here the close is only 1%
above the VWAP — not more than 2%, so per the claim the position part
should contribute nothing — yet the VWAP sub-score is +0.5, because
`vwap_pos` is the percentage 1.0 and the code compares it against 0.02
(signal_engine.py:165). -/
theorem vwap_subscore_two_percent_counterexample :
    compute_vwap c5Candles = (100, 1, 0) ∧
    ¬((lastClose c5Candles - (compute_vwap c5Candles).1) / (compute_vwap c5Candles).1 > 2/100) ∧
    vwapScore (compute_vwap c5Candles).2.1 (compute_vwap c5Candles).2.2 = 1/2 := by
  norm_num [compute_vwap, vwapValues, vwapOf, vwapSlopeOf, lastClose, lastN, c5Candles, vwapScore]

/-- Witness for C5 (amended): the threshold characterisation applied at
the concrete three-candle input. -/
theorem vwap_subscore_threshold_witness :
    vwapScore (compute_vwap c5Candles).2.1 (compute_vwap c5Candles).2.2 =
      max (-1) (min 1
        ((if (lastClose c5Candles - (compute_vwap c5Candles).1) / (compute_vwap c5Candles).1
              > 2/10000 then (1:ℚ)/2
          else if (lastClose c5Candles - (compute_vwap c5Candles).1) / (compute_vwap c5Candles).1
              < -(2/10000) then -(1/2) else 0)
         + (if (compute_vwap c5Candles).2.2 > 2/10 then (1:ℚ)/2
            else if (compute_vwap c5Candles).2.2 < -(2/10) then -(1/2) else 0))) :=
  vwap_subscore_threshold c5Candles
    (by norm_num [compute_vwap, vwapValues, vwapOf, vwapSlopeOf, lastN, c5Candles])

/-- The suggestion block does not depend on the DOWN price when the
direction is UP (entry is the UP price) or the strength is below 30 (no
suggestion at all) (signal_engine.py:218-227). -/
theorem suggestionOf_down_indep (up d1 d2 : ℚ) (dir : Direction) (st : ℤ)
    (h : dir = Direction.UP ∨ st < 30) :
    suggestionOf up d1 dir st = suggestionOf up d2 dir st := by
  unfold suggestionOf
  rcases h with h | h
  · subst h
    simp
  · rw [if_neg (by omega : ¬st ≥ 30), if_neg (by omega : ¬st ≥ 30)]

/-- C10: noninterference of the DOWN-contract price.  Two calls to
`compute_signal` differing only in `downPrice` (same `upPrice > 0`,
`assetPrice > 0`, indicators, history, regime and phase) return signals
with the same score, strength and direction; and the entire signals are
identical whenever the shared direction is UP or the shared strength is
below 30 — `down_buy` is only read when building the suggestion entry of
a non-UP signal (signal_engine.py:71-239). -/
theorem compute_signal_downPrice_noninterference (up down1 down2 btc : ℚ) (bi : Indicators)
    (history : List HistSample) (regime : Regime) (phase : MarketPhase)
    (hup : 0 < up) (hbtc : 0 < btc) :
    ∃ sig1 sig2,
      compute_signal up down1 btc (some bi) history regime phase = some sig1 ∧
      compute_signal up down2 btc (some bi) history regime phase = some sig2 ∧
      sig1.score = sig2.score ∧ sig1.strength = sig2.strength ∧
      sig1.direction = sig2.direction ∧
      ((sig1.direction = Direction.UP ∨ sig1.strength < 30) → sig1 = sig2) := by
  have hcond : ¬(up ≤ 0 ∨ btc ≤ 0) := by push_neg; exact ⟨hup, hbtc⟩
  refine ⟨signalOf up down1 btc bi history regime phase,
          signalOf up down2 btc bi history regime phase,
          by simp only [compute_signal]; rw [if_neg hcond],
          by simp only [compute_signal]; rw [if_neg hcond],
          rfl, rfl, rfl, ?_⟩
  intro h
  simp only [signalOf, Signal.mk.injEq, true_and, and_true]
  exact suggestionOf_down_indep up down1 down2 _ _ h

/-- Witness for C10: the noninterference at a concrete input with
`down1 = 0.2`, `down2 = 0.3`. -/
theorem compute_signal_downPrice_noninterference_witness :
    ∃ sig1 sig2,
      compute_signal (1/2) (1/5) 100 (some c1Bi) [] Regime.RANGE MarketPhase.MID = some sig1 ∧
      compute_signal (1/2) (3/10) 100 (some c1Bi) [] Regime.RANGE MarketPhase.MID = some sig2 ∧
      sig1.score = sig2.score ∧ sig1.strength = sig2.strength ∧
      sig1.direction = sig2.direction ∧
      ((sig1.direction = Direction.UP ∨ sig1.strength < 30) → sig1 = sig2) :=
  compute_signal_downPrice_noninterference (1/2) (1/5) (3/10) 100 c1Bi [] Regime.RANGE
    MarketPhase.MID (by norm_num) (by norm_num)

/-- A buffer of five closed candles for the disconnected-stream scenario. -/
def c2Buf : List Candle :=
  [⟨0, 1, 1, 1, 1, 1⟩, ⟨1, 1, 1, 1, 1, 1⟩, ⟨2, 1, 1, 1, 1, 1⟩, ⟨3, 1, 1, 1, 1, 1⟩,
   ⟨4, 1, 1, 1, 1, 1⟩]

/-- A `BinanceWS` state marked disconnected with a nonempty stale buffer. -/
def c2State : WSState := ⟨c2Buf, none, false, 0⟩

/-- C2 counterexample to the claim as stated: with the stream marked
disconnected, when the synchronous fallback fetch *fails* the code
returns the stale internal buffer tagged `'ws'` (the stream tag, not the
fallback tag) and leaves the buffer untouched
(ws_binance.py:136-141, `# Return whatever we have`). -/
theorem get_candles_disconnected_stale_counterexample :
    (get_candles c2State 0 20 none).2.1 = Source.ws ∧
    (get_candles c2State 0 20 none).1 = c2Buf ∧
    (get_candles c2State 0 20 none).2.2 = c2State := by
  norm_num [get_candles, c2State, c2Buf, pyLastSlice, lastN, ne_eq, List.cons_ne_nil]

/-- C2 (amended): for every call to `get_candles` while the stream is
marked disconnected *in which the synchronous fallback fetch succeeds
(with a nonempty result)*, the call reports source `'http'` (the spec's
`fallback`), returns exactly the fetched candles, and reseeds the buffer:
all but the newest fetched candle become the closed buffer, the newest
becomes the forming slot, and the update clock is refreshed
(ws_binance.py:123-135). -/
theorem get_candles_disconnected_fallback (st : WSState) (now : ℚ) (limit : ℕ)
    (fetched : List Candle) (hconn : st.connected = false) (hne : fetched ≠ []) :
    get_candles st now limit (some fetched) =
      (fetched, Source.http,
       { candles := fetched.dropLast, current := some (fetched.getLast hne),
         connected := st.connected, last_update := now }) := by
  unfold get_candles
  rw [if_neg (by rw [hconn]; simp)]
  dsimp only
  rw [List.getLast?_eq_getLast_of_ne_nil hne]

/-- A successful three-candle fallback fetch result. -/
def c2Fetch : List Candle := [⟨7, 2, 2, 2, 2, 1⟩, ⟨8, 2, 2, 2, 2, 1⟩, ⟨9, 3, 3, 3, 3, 1⟩]

/-- Witness for C2 (amended): the disconnected state with a successful
fetch returns the fetch tagged `'http'` and reseeds the buffer. -/
theorem get_candles_disconnected_fallback_witness :
    get_candles c2State 5 3 (some c2Fetch) =
      (c2Fetch, Source.http,
       ⟨[⟨7, 2, 2, 2, 2, 1⟩, ⟨8, 2, 2, 2, 2, 1⟩], some ⟨9, 3, 3, 3, 3, 1⟩, false, 5⟩) :=
  get_candles_disconnected_fallback c2State 5 3 c2Fetch rfl (by simp [c2Fetch])

/-- A constant quote function: every `get_price` call returns 0.5. -/
def constHalfPrice : TradeDir → Side → ℚ := fun _ _ => 1/2

/-- `up` and `down` are distinct direction tags. -/
theorem up_ne_down : (TradeDir.up = TradeDir.down) = False := by simp

/-- `down` and `up` are distinct direction tags. -/
theorem down_ne_up : (TradeDir.down = TradeDir.up) = False := by simp

/-- Two *value-equal* but distinct local position dict objects of 2
shares each (same direction, price, time, keys): reachable when two buys
fill at the same price within the same second. -/
def c3Pos : List Position :=
  [⟨0, TradeDir.up, 1/2, 2, 0, false⟩, ⟨1, TradeDir.up, 1/2, 2, 0, false⟩]

set_option maxRecDepth 4000

/-- C3 failing input: with local = [2, 2] (two value-equal dict objects)
and unchanged on-exchange balances up = 1, down = 0, the first
`sync_positions` run leaves one 2-share position (it removes one dict by
value — `positions.remove(p)` deletes the first `==`-equal element — and
then mutates the snapshot object that is no longer in the list, losing
that update), so local (2) still differs from on-exchange (1) and the
*second* run emits a further `removed` change: reconciliation is not
idempotent (trade_executor.py:83-93). -/
theorem sync_positions_idempotence_failure :
    (sync_positions (some 1) (some 0) constHalfPrice 0 c3Pos).1
      = [⟨1, TradeDir.up, 1/2, 2, 0, false⟩] ∧
    (sync_positions (some 1) (some 0) constHalfPrice 0
        (sync_positions (some 1) (some 0) constHalfPrice 0 c3Pos).1).2
      = [⟨TradeDir.up, 1, 1/2, SyncAction.removed⟩] := by
  norm_num [sync_positions, syncDirection, syncRemove, removeFirstVal, mutateShares, pval,
    freshPid, constHalfPrice, c3Pos, List.reverse_cons, List.reverse_nil, List.filter_cons,
    List.filter_nil, decide_eq_true_eq, up_ne_down, down_ne_up]

/-- Two value-equal 3-share position objects. -/
def c4Pos : List Position :=
  [⟨0, TradeDir.up, 1/2, 3, 0, false⟩, ⟨1, TradeDir.up, 1/2, 3, 0, false⟩]

/-- C4 failing input: local sum is 6, on-exchange is 1, so the deficit is
5 — but `sync_positions` removes only 3 shares from the list (one whole
position) while *reporting* change tuples totalling 5 removed shares:
`positions.remove(p)` deletes the first value-equal dict (the oldest,
not the LIFO one), after which the partial-consumption mutation
`p['shares'] -= to_remove` lands on an object no longer in the list and
is lost (trade_executor.py:83-93). -/
theorem sync_positions_lifo_deficit_failure :
    ((c4Pos.map (·.shares)).sum = 6) ∧
    (sync_positions (some 1) (some 0) constHalfPrice 0 c4Pos).1
      = [⟨1, TradeDir.up, 1/2, 3, 0, false⟩] ∧
    ((sync_positions (some 1) (some 0) constHalfPrice 0 c4Pos).2.map (·.shares)).sum = 5 := by
  norm_num [sync_positions, syncDirection, syncRemove, removeFirstVal, mutateShares, pval,
    freshPid, constHalfPrice, c4Pos, List.reverse_cons, List.reverse_nil, List.filter_cons,
    List.filter_nil, decide_eq_true_eq, up_ne_down, down_ne_up]
